import Mathlib

/-!
Verification of the RPC message envelope of
`torch/csrc/distributed/rpc/message.cpp`.

The `Message` value type, its classification predicates
(`isRequest` / `isResponse`), the tuple codec
(`toIValueTuple` / `fromIValueTuple`) and the exception-response factory
are embedded as executable Lean definitions; the theorems at the end of
the file settle the behavioural properties stated of them.
-/

namespace TorchRpc

/-- An opaque tensor handle (`torch::Tensor`).  Its contents are never
interpreted by this core, so it is modelled as an opaque identifier;
tensors are copyable and comparable for identity. -/
structure Tensor where
  ident : Nat
deriving DecidableEq, Repr

/-!
### MessageType tags

Modelled from the spec: the `MessageType` enumeration is declared in
`torch/csrc/distributed/rpc/message.h`, which is not part of the sources;
the spec describes it as a closed enumeration covering built-in / Python
call and return kinds, remote-reference creation / fetch kinds, the
remote-reference lifecycle kinds, the autograd propagation and context
cleanup kinds, the profiling-wrapped kinds, a generic exception kind and
an unknown sentinel.  Only the distinctness of the tags is observable to
this core (the predicates compare tags for equality and the codec copies
them), so the tags are fixed here as distinct integers in declaration
order.
-/

def SCRIPT_CALL : Int := 0
def SCRIPT_RET : Int := 1
def PYTHON_CALL : Int := 2
def PYTHON_RET : Int := 3
def SCRIPT_REMOTE_CALL : Int := 4
def PYTHON_REMOTE_CALL : Int := 5
def REMOTE_RET : Int := 6
def SCRIPT_RREF_FETCH_CALL : Int := 7
def PYTHON_RREF_FETCH_CALL : Int := 8
def SCRIPT_RREF_FETCH_RET : Int := 9
def PYTHON_RREF_FETCH_RET : Int := 10
def RREF_USER_DELETE : Int := 11
def RREF_FORK_REQUEST : Int := 12
def RREF_CHILD_ACCEPT : Int := 13
def RREF_ACK : Int := 14
def FORWARD_AUTOGRAD_REQ : Int := 15
def FORWARD_AUTOGRAD_RESP : Int := 16
def BACKWARD_AUTOGRAD_REQ : Int := 17
def BACKWARD_AUTOGRAD_RESP : Int := 18
def CLEANUP_AUTOGRAD_CONTEXT_REQ : Int := 19
def CLEANUP_AUTOGRAD_CONTEXT_RESP : Int := 20
def RUN_WITH_PROFILING_REQ : Int := 21
def RUN_WITH_PROFILING_RESP : Int := 22
def EXCEPTION : Int := 23
def UNKNOWN : Int := 24

/-- The tags of the closed `MessageType` enumeration, in declaration
order. -/
def messageKindValues : List Int :=
  [SCRIPT_CALL, SCRIPT_RET, PYTHON_CALL, PYTHON_RET,
   SCRIPT_REMOTE_CALL, PYTHON_REMOTE_CALL, REMOTE_RET,
   SCRIPT_RREF_FETCH_CALL, PYTHON_RREF_FETCH_CALL,
   SCRIPT_RREF_FETCH_RET, PYTHON_RREF_FETCH_RET,
   RREF_USER_DELETE, RREF_FORK_REQUEST, RREF_CHILD_ACCEPT, RREF_ACK,
   FORWARD_AUTOGRAD_REQ, FORWARD_AUTOGRAD_RESP,
   BACKWARD_AUTOGRAD_REQ, BACKWARD_AUTOGRAD_RESP,
   CLEANUP_AUTOGRAD_CONTEXT_REQ, CLEANUP_AUTOGRAD_CONTEXT_RESP,
   RUN_WITH_PROFILING_REQ, RUN_WITH_PROFILING_RESP, EXCEPTION, UNKNOWN]

/-- Whether an integer tag is one of the enumerated `MessageType`
values. -/
def isKnownMessageType (k : Int) : Bool :=
  messageKindValues.contains k

/-!
### The Message value type

`payload_` is a `std::vector<char>`, modelled as a list of byte values;
`tensors_` is a `std::vector<torch::Tensor>`; `type_` holds the
`MessageType` tag (its underlying integer, since
`Message::fromIValueTuple` stores an unchecked `static_cast` of an
arbitrary integer into it); `id_` is the `int64_t` correlation id.  None
of the embedded operations performs arithmetic on `id_`, they only copy
and compare it, so plain `Int` is a faithful model of `int64_t` here.
-/

structure Message where
  payload_ : List Nat
  tensors_ : List Tensor
  type_ : Int
  id_ : Int
deriving DecidableEq, Repr

/-- `Message::Message()`: default construction.  Modelled from the spec:
the in-class initialisers live in `message.h` (not in the sources); the
spec calls for an empty-payload, empty-handle, unset-kind state with the
id at its sentinel. -/
def Message.default : Message :=
  Message.mk [] [] UNKNOWN (-1)

/-- `Message::payload() const`. -/
def Message.payload (m : Message) : List Nat := m.payload_

/-- `Message::tensors() const`. -/
def Message.tensors (m : Message) : List Tensor := m.tensors_

/-- `Message::type() const`. -/
def Message.type (m : Message) : Int := m.type_

/-- `Message::id() const`. -/
def Message.id (m : Message) : Int := m.id_

/-- `Message::setId(int64_t id)`: stores the new id; no other field is
touched. -/
def Message.setId (m : Message) (id : Int) : Message :=
  { m with id_ := id }

/-- `Message::isRequest() const`: the disjunction of tag comparisons,
in source order. -/
def Message.isRequest (m : Message) : Bool :=
  SCRIPT_CALL == m.type_ ||
  PYTHON_CALL == m.type_ ||
  SCRIPT_REMOTE_CALL == m.type_ ||
  PYTHON_REMOTE_CALL == m.type_ ||
  SCRIPT_RREF_FETCH_CALL == m.type_ ||
  PYTHON_RREF_FETCH_CALL == m.type_ ||
  RREF_USER_DELETE == m.type_ ||
  RREF_CHILD_ACCEPT == m.type_ ||
  RREF_FORK_REQUEST == m.type_ ||
  BACKWARD_AUTOGRAD_REQ == m.type_ ||
  FORWARD_AUTOGRAD_REQ == m.type_ ||
  CLEANUP_AUTOGRAD_CONTEXT_REQ == m.type_ ||
  RUN_WITH_PROFILING_REQ == m.type_

/-- `Message::isResponse() const`: the disjunction of tag comparisons,
in source order. -/
def Message.isResponse (m : Message) : Bool :=
  SCRIPT_RET == m.type_ ||
  PYTHON_RET == m.type_ ||
  REMOTE_RET == m.type_ ||
  SCRIPT_RREF_FETCH_RET == m.type_ ||
  PYTHON_RREF_FETCH_RET == m.type_ ||
  EXCEPTION == m.type_ ||
  RREF_ACK == m.type_ ||
  BACKWARD_AUTOGRAD_RESP == m.type_ ||
  FORWARD_AUTOGRAD_RESP == m.type_ ||
  CLEANUP_AUTOGRAD_CONTEXT_RESP == m.type_ ||
  RUN_WITH_PROFILING_RESP == m.type_

/-- `Message::swap(Message& rhs)`: `std::swap` on all four fields, so
the two messages simply exchange their contents.  The pair returned is
(state of `*this` after, state of `rhs` after). -/
def Message.swap (a rhs : Message) : Message × Message :=
  (rhs, a)

/-- `Message::operator=(Message const& rhs) &`: copies the right-hand
side's payload and tensors into locals, builds a temporary from them and
the right-hand side's tag and id, and swaps the temporary with `*this`;
the temporary (now holding the old `*this`) is destroyed.  Returns
(state of `*this` after, state of `rhs` after). -/
def Message.copyAssign (self rhs : Message) : Message × Message :=
  let payload := rhs.payload_
  let tensors := rhs.tensors_
  let tmp := Message.mk payload tensors rhs.type_ rhs.id_
  let swapped := Message.swap tmp self
  (swapped.2, rhs)

/-- `Message::operator=(Message&& rhs) &`: moves the right-hand side's
payload and tensors into a temporary (leaving the source's vectors
empty), reads (does not move) its tag and id, and swaps the temporary
with `*this`.  Returns (state of `*this` after, state of `rhs`
after). -/
def Message.moveAssign (self rhs : Message) : Message × Message :=
  let tmp := Message.mk rhs.payload_ rhs.tensors_ rhs.type_ rhs.id_
  let rhsAfter := Message.mk [] [] rhs.type_ rhs.id_
  let swapped := Message.swap tmp self
  (swapped.2, rhsAfter)

/-- The temporary-then-swap shape of both assignment operators: the only
mutation of `*this` is the `swap` with the fully constructed temporary,
so if constructing the temporary fails (`Option.none`) the target is
returned unchanged. -/
def Message.assignViaTemp (self : Message) (tmp : Option Message) : Message :=
  match tmp with
  | Option.none => self
  | Option.some t => (Message.swap t self).2

/-!
### The tagged IValue representation

`at::IValue` is a dynamically typed value; this core only uses its
tuple, list, string, integer and tensor variants and the runtime tests
`isTuple` / `isString` / `isList` / `isInt`.  A few further variants
(`none`, `bool`) stand in for the remaining dynamic types so that the
"wrong dynamic type" failure paths are populated.  C++ `std::string` is
a byte sequence, so the string variant carries byte values. -/
inductive IValue where
  | none
  | bool (b : Bool)
  | int (n : Int)
  | str (s : List Nat)
  | tensor (t : Tensor)
  | list (elems : List IValue)
  | tuple (elems : List IValue)

/-- `IValue::isTuple()`. -/
def IValue.isTuple : IValue → Bool
  | IValue.tuple _ => true
  | _ => false

/-- `IValue::isString()`. -/
def IValue.isString : IValue → Bool
  | IValue.str _ => true
  | _ => false

/-- `IValue::isList()`. -/
def IValue.isList : IValue → Bool
  | IValue.list _ => true
  | _ => false

/-- `IValue::isInt()`. -/
def IValue.isInt : IValue → Bool
  | IValue.int _ => true
  | _ => false

/-- `IValue::toTensorVector()` applied to the elements of a generic
list: succeeds exactly when every element is a tensor, preserving
order. -/
def toTensorVector : List IValue → Except String (List Tensor)
  | [] => Except.ok []
  | IValue.tensor t :: rest =>
      (toTensorVector rest).map (fun ts => t :: ts)
  | _ :: _ => Except.error "Expected Tensor element in list"

/-- `Message::toIValueTuple() const`: the payload bytes as a string
value, the tensors as a generic list, the tag and the id as integers,
packed into a four slot tuple in the fixed order payload, tensors,
type, id. -/
def Message.toIValueTuple (m : Message) : IValue :=
  IValue.tuple
    [IValue.str m.payload_,
     IValue.list (m.tensors_.map IValue.tensor),
     IValue.int m.type_,
     IValue.int m.id_]

/-- `Message::fromIValueTuple(at::IValue messageTuple)`: the checked
inverse.  The `TORCH_INTERNAL_ASSERT` failures are modelled as
`Except.error` carrying the assertion's diagnostic; the check order is
the source order (tuple shape, size, slot 0 string, slot 1 list and its
decoding, slot 2 int, slot 3 int).  The slot 2 integer is stored into
the tag field by an unchecked `static_cast`: no range check is
performed. -/
def Message.fromIValueTuple (messageTuple : IValue) : Except String Message :=
  match messageTuple with
  | IValue.tuple [payloadIValue, tensorsIValue, messageTypeIValue, messageIdIValue] =>
      match payloadIValue with
      | IValue.str payloadString =>
          match tensorsIValue with
          | IValue.list tensorElems =>
              match toTensorVector tensorElems with
              | Except.error e => Except.error e
              | Except.ok tensors =>
                  match messageTypeIValue with
                  | IValue.int messageType =>
                      match messageIdIValue with
                      | IValue.int messageId =>
                          Except.ok
                            (Message.mk payloadString tensors messageType messageId)
                      | _ => Except.error "Expected messageIdIValue to be int."
                  | _ => Except.error "Expected messageTypeIValue to be int."
          | _ => Except.error "Expected tensorsIValue to be list"
      | _ => Except.error "Expected payload to be string"
  | IValue.tuple _ => Except.error "Expected 4 elements in tuple."
  | _ => Except.error "Expected messageTuple to be of type tuple."

/-- `std::exception`: observable here only through `what()`, its textual
description, modelled as the byte sequence of that string. -/
structure StdException where
  what_ : List Nat
deriving DecidableEq, Repr

/-- `createExceptionResponse(const std::string& exceptionStr, int64_t
id)`: the description's bytes as payload, no tensors, the exception kind
and the given id. -/
def createExceptionResponse (exceptionStr : List Nat) (id : Int) : Message :=
  Message.mk exceptionStr [] EXCEPTION id

/-- `createExceptionResponse(const std::exception& e, int64_t id)`:
delegates to the string overload on `e.what()`. -/
def createExceptionResponseFromExc (e : StdException) (id : Int) : Message :=
  createExceptionResponse e.what_ id

/-!
### A buffer-identity model for copy independence

`Message::Message(const Message&) = default` member-copies the two
`std::vector` fields, and copying a `std::vector` allocates a fresh
buffer holding a copy of the elements.  To make buffer independence
observable, a message is modelled here as a record of references into a
heap of buffers: the copy constructor allocates fresh buffers at the end
of the heap, and mutation through one reference's buffer can then be
compared with reads through the other. -/

/-- Read the buffer at an index of a buffer heap (out of range reads the
empty buffer; the theorems only use in-range indices). -/
def lookupBuf {α : Type} : List (List α) → Nat → List α
  | [], _ => []
  | b :: _, 0 => b
  | _ :: rest, n + 1 => lookupBuf rest n

/-- Replace the buffer at an index of a buffer heap. -/
def updateBuf {α : Type} : List (List α) → Nat → List α → List (List α)
  | [], _, _ => []
  | _ :: rest, 0, nb => nb :: rest
  | b :: rest, n + 1, nb => b :: updateBuf rest n nb

/-- The heap of payload buffers and tensor-vector buffers owned by live
messages. -/
structure Heap where
  payloadBufs : List (List Nat)
  tensorBufs : List (List Tensor)

/-- A message as a record of buffer references plus the two scalar
fields. -/
structure MessageRef where
  payloadPtr : Nat
  tensorsPtr : Nat
  type_ : Int
  id_ : Int

/-- The payload bytes of a message, read through its buffer
reference. -/
def Heap.readPayload (h : Heap) (r : MessageRef) : List Nat :=
  lookupBuf h.payloadBufs r.payloadPtr

/-- The tensor vector of a message, read through its buffer
reference. -/
def Heap.readTensors (h : Heap) (r : MessageRef) : List Tensor :=
  lookupBuf h.tensorBufs r.tensorsPtr

/-- Overwrite a message's payload bytes in place, through the mutable
reference returned by `Message::payload()`. -/
def Heap.writePayload (h : Heap) (r : MessageRef) (newBytes : List Nat) : Heap :=
  Heap.mk (updateBuf h.payloadBufs r.payloadPtr newBytes) h.tensorBufs

/-- `Message::Message(const Message& other) = default`: member-copies
the payload and tensor vectors into freshly allocated buffers and copies
the scalar fields.  Returns the heap after the allocations and the
reference held by the copy. -/
def copyConstruct (h : Heap) (m : MessageRef) : Heap × MessageRef :=
  (Heap.mk (h.payloadBufs ++ [h.readPayload m]) (h.tensorBufs ++ [h.readTensors m]),
   MessageRef.mk h.payloadBufs.length h.tensorBufs.length m.type_ m.id_)

theorem lookupBuf_append {α : Type} (bufs : List (List α)) (b : List α) :
    lookupBuf (bufs ++ [b]) bufs.length = b := by
  induction bufs with
  | nil => rfl
  | cons x rest ih =>
    simpa only [List.cons_append, List.length_cons, lookupBuf] using ih

theorem lookupBuf_append_lt {α : Type} (bufs : List (List α)) (b : List α)
    (n : Nat) (h : n < bufs.length) :
    lookupBuf (bufs ++ [b]) n = lookupBuf bufs n := by
  induction bufs generalizing n with
  | nil => exact absurd h (Nat.not_lt_zero n)
  | cons x rest ih =>
    cases n with
    | zero => rfl
    | succ k =>
      simp only [List.cons_append, lookupBuf]
      exact ih k (Nat.lt_of_succ_lt_succ h)

theorem lookupBuf_updateBuf_ne {α : Type} (bufs : List (List α))
    (i j : Nat) (nb : List α) (h : i ≠ j) :
    lookupBuf (updateBuf bufs i nb) j = lookupBuf bufs j := by
  induction bufs generalizing i j with
  | nil => cases i <;> rfl
  | cons x rest ih =>
    cases i with
    | zero =>
      cases j with
      | zero => exact absurd rfl h
      | succ k => rfl
    | succ ii =>
      cases j with
      | zero => rfl
      | succ k =>
        simp only [updateBuf, lookupBuf]
        exact ih ii k (fun e => h (congrArg Nat.succ e))

/-!
### Theorems
-/

theorem toTensorVector_map (ts : List Tensor) :
    toTensorVector (ts.map IValue.tensor) = Except.ok ts := by
  induction ts with
  | nil => rfl
  | cons t rest ih => simp [toTensorVector, ih, Except.map]

/-- C1: for every Envelope `m` (all four fields populated),
`fromIValueTuple (toIValueTuple m)` succeeds and yields an Envelope
equal to `m` in all four fields; in particular the tensor sequence comes
back in exactly the same order. -/
theorem fromTuple_toTuple_roundtrip (m : Message) :
    Message.fromIValueTuple (Message.toIValueTuple m) = Except.ok m := by
  cases m with
  | mk p ts k i =>
    simp [Message.toIValueTuple, Message.fromIValueTuple, toTensorVector_map]

/-- C6: `createExceptionResponse s id` yields an Envelope with the
exception kind, the given id, an empty tensor list and the bytes of `s`
as payload; the `std::exception` overload agrees with the string
overload applied to `e.what()`. -/
theorem createExceptionResponse_spec :
    (∀ (s : List Nat) (id : Int),
      (createExceptionResponse s id).type_ = EXCEPTION ∧
      (createExceptionResponse s id).id_ = id ∧
      (createExceptionResponse s id).tensors_ = [] ∧
      (createExceptionResponse s id).payload_ = s) ∧
    (∀ (e : StdException) (id : Int),
      createExceptionResponseFromExc e id = createExceptionResponse e.what_ id) :=
  ⟨fun _ _ => ⟨rfl, rfl, rfl, rfl⟩, fun _ _ => rfl⟩

/-- C7: copy assignment and move assignment leave the target holding
exactly the source's four field values; copy assignment leaves the
source intact; both are a temporary-then-swap, so a failed construction
of the temporary leaves the target unchanged. -/
theorem assignment_equivalence (t s : Message) :
    (Message.copyAssign t s).1 = Message.mk s.payload_ s.tensors_ s.type_ s.id_ ∧
    (Message.copyAssign t s).2 = s ∧
    (Message.moveAssign t s).1 = (Message.copyAssign t s).1 ∧
    (∀ tmp : Message, Message.assignViaTemp t (Option.some tmp) = tmp) ∧
    Message.assignViaTemp t Option.none = t :=
  ⟨rfl, rfl, rfl, fun _ => rfl, rfl⟩

/-- C8: after `setId v` the id accessor returns `v` and the payload,
tensor sequence and kind are unchanged; `setId` touches nothing else. -/
theorem setId_frame (m : Message) (v : Int) :
    (m.setId v).id = v ∧
    (m.setId v).payload_ = m.payload_ ∧
    (m.setId v).tensors_ = m.tensors_ ∧
    (m.setId v).type_ = m.type_ :=
  ⟨rfl, rfl, rfl, rfl⟩

/-- C10: after move assignment the source is left with empty payload and
tensor vectors, while its kind and id retain their pre-move values (they
are read, not moved out). -/
theorem moveAssign_source_state (t s : Message) :
    (Message.moveAssign t s).2.payload_ = [] ∧
    (Message.moveAssign t s).2.tensors_ = [] ∧
    (Message.moveAssign t s).2.type_ = s.type_ ∧
    (Message.moveAssign t s).2.id_ = s.id_ :=
  ⟨rfl, rfl, rfl, rfl⟩

/-- C2: `fromIValueTuple` fails with the tuple-shape diagnostic on every
non-tuple value, with the size diagnostic on every tuple not of exactly
four elements, and with the slot diagnostic of the first failing slot on
every four-element tuple whose slot 0 is not a string, slot 1 not a
list, slot 2 not an int or slot 3 not an int; each failure aborts the
conversion with `Except.error` (no Envelope is produced). -/
theorem fromTuple_rejects_malformed :
    (∀ v : IValue, v.isTuple = false →
      Message.fromIValueTuple v =
        Except.error "Expected messageTuple to be of type tuple.") ∧
    (∀ es : List IValue, es.length ≠ 4 →
      Message.fromIValueTuple (IValue.tuple es) =
        Except.error "Expected 4 elements in tuple.") ∧
    (∀ a b c d : IValue, a.isString = false →
      Message.fromIValueTuple (IValue.tuple [a, b, c, d]) =
        Except.error "Expected payload to be string") ∧
    (∀ (p : List Nat) (b c d : IValue), b.isList = false →
      Message.fromIValueTuple (IValue.tuple [IValue.str p, b, c, d]) =
        Except.error "Expected tensorsIValue to be list") ∧
    (∀ (p : List Nat) (ts : List Tensor) (c d : IValue), c.isInt = false →
      Message.fromIValueTuple
          (IValue.tuple [IValue.str p, IValue.list (ts.map IValue.tensor), c, d]) =
        Except.error "Expected messageTypeIValue to be int.") ∧
    (∀ (p : List Nat) (ts : List Tensor) (k : Int) (d : IValue), d.isInt = false →
      Message.fromIValueTuple
          (IValue.tuple
            [IValue.str p, IValue.list (ts.map IValue.tensor), IValue.int k, d]) =
        Except.error "Expected messageIdIValue to be int.") := by
  refine ⟨?_, ?_, ?_, ?_, ?_, ?_⟩
  · intro v hv
    cases v <;> first
      | rfl
      | exact absurd hv (by simp [IValue.isTuple])
  · intro es h
    rcases es with _ | ⟨a, _ | ⟨b, _ | ⟨c, _ | ⟨d, _ | ⟨e, rest⟩⟩⟩⟩⟩
    · rfl
    · rfl
    · rfl
    · rfl
    · exact absurd rfl h
    · rfl
  · intro a b c d ha
    cases a <;> first
      | rfl
      | exact absurd ha (by simp [IValue.isString])
  · intro p b c d hb
    cases b <;> first
      | rfl
      | exact absurd hb (by simp [IValue.isList])
  · intro p ts c d hc
    cases c
    case int => exact absurd hc (by simp [IValue.isInt])
    all_goals simp [Message.fromIValueTuple, toTensorVector_map]
  · intro p ts k d hd
    cases d
    case int => exact absurd hd (by simp [IValue.isInt])
    all_goals simp [Message.fromIValueTuple, toTensorVector_map]

/-- Witness for C2: each rejection case applied at a concrete input. -/
theorem fromTuple_rejects_malformed_witness :
    (Message.fromIValueTuple (IValue.int 7) =
      Except.error "Expected messageTuple to be of type tuple.") ∧
    (Message.fromIValueTuple (IValue.tuple [IValue.int 0, IValue.int 1, IValue.int 2]) =
      Except.error "Expected 4 elements in tuple.") ∧
    (Message.fromIValueTuple
        (IValue.tuple [IValue.int 0, IValue.none, IValue.none, IValue.none]) =
      Except.error "Expected payload to be string") ∧
    (Message.fromIValueTuple
        (IValue.tuple [IValue.str [], IValue.int 0, IValue.none, IValue.none]) =
      Except.error "Expected tensorsIValue to be list") ∧
    (Message.fromIValueTuple
        (IValue.tuple [IValue.str [], IValue.list [], IValue.bool true, IValue.none]) =
      Except.error "Expected messageTypeIValue to be int.") ∧
    (Message.fromIValueTuple
        (IValue.tuple [IValue.str [], IValue.list [], IValue.int 3, IValue.bool true]) =
      Except.error "Expected messageIdIValue to be int.") :=
  ⟨fromTuple_rejects_malformed.1 (IValue.int 7) rfl,
   fromTuple_rejects_malformed.2.1 [IValue.int 0, IValue.int 1, IValue.int 2] (by decide),
   fromTuple_rejects_malformed.2.2.1 (IValue.int 0) IValue.none IValue.none IValue.none rfl,
   fromTuple_rejects_malformed.2.2.2.1 [] (IValue.int 0) IValue.none IValue.none rfl,
   fromTuple_rejects_malformed.2.2.2.2.1 [] [] (IValue.bool true) IValue.none rfl,
   fromTuple_rejects_malformed.2.2.2.2.2 [] [] 3 (IValue.bool true) rfl⟩

/-- C3 counterexample: a four-element tuple carrying the integer tag
9999, outside the enumeration, is accepted by `fromIValueTuple`: the
conversion succeeds and stores the out-of-range tag, so the claim that
it must fail is false on the code. -/
theorem fromTuple_accepts_out_of_range_tag :
    isKnownMessageType 9999 = false ∧
    Message.fromIValueTuple
        (IValue.tuple [IValue.str [], IValue.list [], IValue.int 9999, IValue.int 0]) =
      Except.ok (Message.mk [] [] 9999 0) :=
  ⟨by decide, rfl⟩

/-- C3 (amended): `fromIValueTuple` performs no range check on the
slot 2 tag: every four-element tuple with a string, a tensor list and
two integers converts successfully, even when the tag is outside the
closed enumeration, and the out-of-range tag is stored as the kind. -/
theorem fromTuple_no_range_check (p : List Nat) (ts : List Tensor) (k id : Int)
    (_hk : isKnownMessageType k = false) :
    Message.fromIValueTuple
        (IValue.tuple
          [IValue.str p, IValue.list (ts.map IValue.tensor),
           IValue.int k, IValue.int id]) =
      Except.ok (Message.mk p ts k id) := by
  simp [Message.fromIValueTuple, toTensorVector_map]

/-- Witness for the amended C3 at the tag 12345. -/
theorem fromTuple_no_range_check_witness :
    isKnownMessageType 12345 = false ∧
    Message.fromIValueTuple
        (IValue.tuple
          [IValue.str [65], IValue.list [], IValue.int 12345, IValue.int 1]) =
      Except.ok (Message.mk [65] [] 12345 1) :=
  ⟨by decide, fromTuple_no_range_check [65] [] 12345 1 (by decide)⟩

/-- C4: for every message whose kind is in the closed enumeration,
`isRequest` and `isResponse` are never both true. -/
theorem isRequest_isResponse_disjoint (m : Message)
    (_hk : isKnownMessageType m.type_ = true) :
    ¬(m.isRequest = true ∧ m.isResponse = true) := by
  intro hboth
  obtain ⟨hreq, hresp⟩ := hboth
  simp only [Message.isRequest, Message.isResponse, Bool.or_eq_true, beq_iff_eq,
    SCRIPT_CALL, SCRIPT_RET, PYTHON_CALL, PYTHON_RET, SCRIPT_REMOTE_CALL,
    PYTHON_REMOTE_CALL, REMOTE_RET, SCRIPT_RREF_FETCH_CALL,
    PYTHON_RREF_FETCH_CALL, SCRIPT_RREF_FETCH_RET, PYTHON_RREF_FETCH_RET,
    RREF_USER_DELETE, RREF_FORK_REQUEST, RREF_CHILD_ACCEPT, RREF_ACK,
    FORWARD_AUTOGRAD_REQ, FORWARD_AUTOGRAD_RESP, BACKWARD_AUTOGRAD_REQ,
    BACKWARD_AUTOGRAD_RESP, CLEANUP_AUTOGRAD_CONTEXT_REQ,
    CLEANUP_AUTOGRAD_CONTEXT_RESP, RUN_WITH_PROFILING_REQ,
    RUN_WITH_PROFILING_RESP, EXCEPTION] at hreq hresp
  omega

/-- Witness for C4 at the built-in-call kind. -/
theorem isRequest_isResponse_disjoint_witness :
    ¬((Message.mk [] [] SCRIPT_CALL 0).isRequest = true ∧
      (Message.mk [] [] SCRIPT_CALL 0).isResponse = true) :=
  isRequest_isResponse_disjoint (Message.mk [] [] SCRIPT_CALL 0) (by decide)

/-- C5: `isRequest` is true on every kind listed as a request (built-in
and Python calls, both remote-creation calls, both remote-fetch calls,
the remote-reference lifecycle messages, both autograd propagation
requests, the autograd-context-cleanup request and the profiling-wrapped
request), and `isResponse` is true on every kind listed as a response
(both call returns, remote-creation return, both fetch returns, the
exception kind, the remote-reference ack, both autograd propagation
responses, the autograd-context-cleanup response and the
profiling-wrapped response). -/
theorem request_response_classification (m : Message) :
    (m.type_ = SCRIPT_CALL ∨ m.type_ = PYTHON_CALL ∨
     m.type_ = SCRIPT_REMOTE_CALL ∨ m.type_ = PYTHON_REMOTE_CALL ∨
     m.type_ = SCRIPT_RREF_FETCH_CALL ∨ m.type_ = PYTHON_RREF_FETCH_CALL ∨
     m.type_ = RREF_USER_DELETE ∨ m.type_ = RREF_CHILD_ACCEPT ∨
     m.type_ = RREF_FORK_REQUEST ∨ m.type_ = BACKWARD_AUTOGRAD_REQ ∨
     m.type_ = FORWARD_AUTOGRAD_REQ ∨ m.type_ = CLEANUP_AUTOGRAD_CONTEXT_REQ ∨
     m.type_ = RUN_WITH_PROFILING_REQ → m.isRequest = true) ∧
    (m.type_ = SCRIPT_RET ∨ m.type_ = PYTHON_RET ∨ m.type_ = REMOTE_RET ∨
     m.type_ = SCRIPT_RREF_FETCH_RET ∨ m.type_ = PYTHON_RREF_FETCH_RET ∨
     m.type_ = EXCEPTION ∨ m.type_ = RREF_ACK ∨
     m.type_ = BACKWARD_AUTOGRAD_RESP ∨ m.type_ = FORWARD_AUTOGRAD_RESP ∨
     m.type_ = CLEANUP_AUTOGRAD_CONTEXT_RESP ∨
     m.type_ = RUN_WITH_PROFILING_RESP → m.isResponse = true) := by
  constructor
  · intro h
    simp only [Message.isRequest, Bool.or_eq_true, beq_iff_eq]
    tauto
  · intro h
    simp only [Message.isResponse, Bool.or_eq_true, beq_iff_eq]
    tauto

/-- Witness for C5 at the built-in-call and exception kinds. -/
theorem request_response_classification_witness :
    (Message.mk [] [] SCRIPT_CALL 0).isRequest = true ∧
    (Message.mk [] [] EXCEPTION 7).isResponse = true :=
  ⟨(request_response_classification (Message.mk [] [] SCRIPT_CALL 0)).1 (Or.inl rfl),
   (request_response_classification (Message.mk [] [] EXCEPTION 7)).2
     (Or.inr (Or.inr (Or.inr (Or.inr (Or.inr (Or.inl rfl))))))⟩

/-- C9: copy construction allocates independent buffers: the copy's four
fields initially equal the original's, overwriting the copy's payload
bytes leaves the original's payload bytes unchanged, and overwriting the
original's payload bytes leaves the copy's payload bytes unchanged. -/
theorem copy_independence (h : Heap) (m : MessageRef)
    (hp : m.payloadPtr < h.payloadBufs.length)
    (_ht : m.tensorsPtr < h.tensorBufs.length) :
    ((copyConstruct h m).1.readPayload (copyConstruct h m).2 = h.readPayload m ∧
     (copyConstruct h m).1.readTensors (copyConstruct h m).2 = h.readTensors m ∧
     (copyConstruct h m).2.type_ = m.type_ ∧
     (copyConstruct h m).2.id_ = m.id_) ∧
    (∀ newBytes : List Nat,
      ((copyConstruct h m).1.writePayload (copyConstruct h m).2 newBytes).readPayload m =
        h.readPayload m) ∧
    (∀ newBytes : List Nat,
      ((copyConstruct h m).1.writePayload m newBytes).readPayload (copyConstruct h m).2 =
        h.readPayload m) := by
  refine ⟨⟨?_, ?_, rfl, rfl⟩, ?_, ?_⟩
  · exact lookupBuf_append h.payloadBufs (h.readPayload m)
  · exact lookupBuf_append h.tensorBufs (h.readTensors m)
  · intro newBytes
    show lookupBuf
        (updateBuf (h.payloadBufs ++ [h.readPayload m]) h.payloadBufs.length newBytes)
        m.payloadPtr = h.readPayload m
    rw [lookupBuf_updateBuf_ne _ _ _ _ (Ne.symm (Nat.ne_of_lt hp))]
    exact lookupBuf_append_lt h.payloadBufs (h.readPayload m) m.payloadPtr hp
  · intro newBytes
    show lookupBuf
        (updateBuf (h.payloadBufs ++ [h.readPayload m]) m.payloadPtr newBytes)
        h.payloadBufs.length = h.readPayload m
    rw [lookupBuf_updateBuf_ne _ _ _ _ (Nat.ne_of_lt hp)]
    exact lookupBuf_append h.payloadBufs (h.readPayload m)

/-- Witness for C9 on a one-message heap: after copying, overwriting the
copy's payload with `[9]` leaves the original's payload `[1, 2]`
readable unchanged. -/
theorem copy_independence_witness :
    ((copyConstruct (Heap.mk [[1, 2]] [[Tensor.mk 0]]) (MessageRef.mk 0 0 0 5)).1.writePayload
        (copyConstruct (Heap.mk [[1, 2]] [[Tensor.mk 0]]) (MessageRef.mk 0 0 0 5)).2
        [9]).readPayload (MessageRef.mk 0 0 0 5) =
      (Heap.mk [[1, 2]] [[Tensor.mk 0]]).readPayload (MessageRef.mk 0 0 0 5) :=
  (copy_independence (Heap.mk [[1, 2]] [[Tensor.mk 0]]) (MessageRef.mk 0 0 0 5)
    (by decide) (by decide)).2.1 [9]

end TorchRpc
